import Mathlib

/-!
Verification of the tackle-metrics pipeline of `nfl_bdb24.py` / `nflutil.py`
(Kaggle NFL Big Data Bowl 2024 repository).

The pandas dataframes are embedded as Lean lists of records; dataframe rows
keep their presentation order (pandas `.iloc[0]` = `List.head?`, boolean-mask
filtering = `List.filter`, `.find?` of the first matching row = `.loc[mask].iloc[0]`).
Python numbers are embedded as `Int` (python ints) and `ℚ` (floats: the float
literals 1.8, 1e-5, 53.3 ... are modelled by the exact rationals they denote).
Python exceptions are modelled by `Except`: `pandas` positional indexing of an
empty selection (`.iloc[0]`) raises `IndexError`, label indexing of a missing
label (`.loc[fid]`) raises `KeyError`, and explicit `raise ValueError(msg)`
carries its message string.
-/

/-- Python exception outcomes reachable in the embedded code. -/
inductive Err where
  /-- pandas `.iloc[0]` on an empty selection (`IndexError: single positional
  indexer is out-of-bounds`). -/
  | indexError
  /-- pandas `.loc[label]` for a label absent from the index (`KeyError`). -/
  | keyError
  /-- an explicit `raise ValueError(msg)`. -/
  | valueError (msg : String)
deriving DecidableEq

deriving instance DecidableEq for Except

/-- One row of the raw tracking dataframe (`track_df`); only the columns the
embedded functions read are kept. -/
structure Track where
  gameId : Int
  playId : Int
  nflId : Int
  frameId : Int
  x : ℚ
  y : ℚ
  s : ℚ
  o : ℚ
  dir : ℚ
  dis : ℚ
  event : Option String
  playDirection : String
deriving DecidableEq

/-- One row of `play_df` (columns used by the pipeline). -/
structure Play where
  gameId : Int
  playId : Int
  ballCarrierId : Int
deriving DecidableEq

/-- One row of `tackle_df` (columns used by the pipeline). -/
structure TackleRow where
  gameId : Int
  playId : Int
  nflId : Int
  tackle : Int
deriving DecidableEq

/-- One row of `player_df` (columns used by the pipeline). -/
structure Player where
  nflId : Int
  weight : ℚ
deriving DecidableEq

/-- One row of the gap/kinematics dataframe produced by
`_get_tackle_components_vs_time` (source line 128's column selection).
The two weight columns come from a pandas *left* merge, so a missing roster
entry leaves them as the missing value NaN, embedded as `none`. -/
structure GapSample where
  frameId : Int
  event : Option String
  gap : ℚ
  s : ℚ
  s_downfield : ℚ
  weight : Option ℚ
  s_downfield_t : ℚ
  weight_t : Option ℚ
  dis_t : ℚ
  x_t : ℚ
  y_t : ℚ
deriving DecidableEq

/-- The pd.Series `[tackleFrameId, contactFrameId]` returned by
`_get_tackle_window_data`. -/
structure TackleWindow where
  tackleFrameId : Int
  contactFrameId : Int
deriving DecidableEq

/-- The pd.Series returned by `prep_get_tackle_metrics`.  `d_eff` is `np.nan`
when `d_actual == 0`; NaN cells are embedded as `none`.  The weight columns
(and `s_downfield_delta`, which is arithmetic on them) inherit the possible
NaN of the left-merged roster weights. -/
structure TackleMetricsRecord where
  contactFrameId : Int
  tackleFrameId : Int
  frames : Int
  d_actual : ℚ
  d_ideal : ℚ
  d_eff : Option ℚ
  gap_tackle : ℚ
  w_carrier : Option ℚ
  w_tackler : Option ℚ
  s_downfield_delta : Option ℚ
  s_contact : ℚ
deriving DecidableEq

/-- `FIELD_SIZE_X` of `nflplot.py` (120.0 yards). -/
def FIELD_SIZE_X : ℚ := 120

/-- `FIELD_SIZE_Y` of `nflplot.py` (53.3 yards). -/
def FIELD_SIZE_Y : ℚ := 53.3

/-- Python float `%` on a positive modulus: `a - b * floor(a / b)`. -/
def pymod (a b : ℚ) : ℚ := a - b * ((⌊a / b⌋ : ℤ) : ℚ)

/-- Rational stand-in for the transcendental `np.deg2rad` composed with
`np.sin` (degrees to sine of the angle).  A sine of a nonzero rational angle
is irrational, so an exact rational embedding cannot exist; this Taylor-style
approximation (with π approximated by 355/113) is used only so that the
builder's `s_downfield` columns are computable.  No theorem below depends on
its values. -/
def sinDeg (d : ℚ) : ℚ :=
  let x := d * (355 / 113) / 180
  x - x ^ 3 / 6 + x ^ 5 / 120

/-- pandas `Series.unique().tolist()`: deduplicate keeping the first
occurrence of each value, preserving order. -/
def uniqueList {α : Type} [DecidableEq α] : List α → List α
  | [] => []
  | a :: t => a :: uniqueList (t.filter (fun b => b ≠ a))
termination_by l => l.length
decreasing_by
  simp only [List.length_cons]
  exact Nat.lt_succ_of_le (List.length_filter_le _ _)

/-- Value of `series.min()` over the `gap` column of a list of rows:
`none` models the NaN that pandas returns for an empty selection. -/
def minGapList : List GapSample → Option ℚ
  | [] => none
  | r :: rs =>
    match minGapList rs with
    | none => some r.gap
    | some m => some (min r.gap m)

/-- `df.sort_values('frameId', ascending=True).iloc[0]`: the first row (in
presentation order, as pandas' stable sort keeps it) attaining the minimal
`frameId`; `none` models the `IndexError` on an empty selection. -/
def firstMinBy : List GapSample → Option GapSample
  | [] => none
  | r :: rs =>
    match firstMinBy rs with
    | none => some r
    | some m => if m.frameId < r.frameId then some m else some r

/-- The boolean window mask of source line 33:
`(frameId >= max(1, tackle_frame_id - 30)) & (frameId < tackle_frame_id)`. -/
def inWindow (tackleFrameId : Int) (r : GapSample) : Bool :=
  decide (max 1 (tackleFrameId - 30) ≤ r.frameId) && decide (r.frameId < tackleFrameId)

/-- `gap_for_contact = max(1.8, min_gap)` of source lines 47 and 55, with
`min_gap` the minimum gap over the contact window (source lines 46 and 54).
Python's `max(1.8, nan)` on an empty window evaluates to `1.8`. -/
def gapForContact (g : List GapSample) (tackleFrameId : Int) : ℚ :=
  match minGapList (g.filter (inWindow tackleFrameId)) with
  | none => 1.8
  | some m => max 1.8 m

/-- The selection `gap_hist_df.loc[idx_contact_window & (gap_hist_df.gap <=
gap_for_contact + 1e-5)]` of source lines 49 and 57. -/
def contactCandidates (g : List GapSample) (tackleFrameId : Int) : List GapSample :=
  g.filter (fun r =>
    inWindow tackleFrameId r && decide (r.gap ≤ gapForContact g tackleFrameId + 1e-5))

/-- The threshold search shared by the two `else` arms of
`_get_tackle_window_data` (source lines 44-50 and 52-58): the earliest
in-window frame whose gap is at most `gap_for_contact + 1e-5`. -/
def thresholdSearch (g : List GapSample) (tackleFrameId : Int) : Except Err TackleWindow :=
  match firstMinBy (contactCandidates g tackleFrameId) with
  | none => Except.error Err.indexError
  | some contactData => Except.ok ⟨tackleFrameId, contactData.frameId⟩

/-- `_get_tackle_window_data` (source lines 20-61): the contact-frame
detector.  The first row labeled "tackle" fixes the tackle frame (`.iloc[0]`
on the empty selection fails when no such row exists); if some row inside the
30-frame window is labeled "first_contact", the first "first_contact" row of
the whole series is fetched and, when its gap is below 3 yards, used directly
as the contact frame; otherwise the threshold search runs. -/
def _get_tackle_window_data (g : List GapSample) : Except Err TackleWindow :=
  match g.find? (fun r => r.event == some "tackle") with
  | none => Except.error Err.indexError
  | some tackleData =>
    if 0 < (g.filter (fun r =>
        inWindow tackleData.frameId r && r.event == some "first_contact")).length then
      match g.find? (fun r => r.event == some "first_contact") with
      | none => Except.error Err.indexError
      | some firstContactSer =>
        if firstContactSer.gap < 3 then
          Except.ok ⟨tackleData.frameId, firstContactSer.frameId⟩
        else
          thresholdSearch g tackleData.frameId
    else
      thresholdSearch g tackleData.frameId

/-- The `weight` column attached by the left merge with
`player_df[['nflId','weight']]`: first roster row of the player, if any
(the roster is assumed to hold at most one row per `nflId`, as the real
`players.csv` does; extra rows would duplicate frames in pandas). -/
def findWeight (player : List Player) (nid : Int) : Option ℚ :=
  (player.find? (fun p => p.nflId == nid)).map Player.weight

/-- The message of the `raise ValueError` at source line 83. -/
def playDirectionMsg (d : String) (gameId playId : Int) : String :=
  "playDirection must be \"right\". Actual playDirection: \"" ++ d ++
    "\". (gameId: " ++ toString gameId ++ ", playId: " ++ toString playId ++ ")"

/-- `_get_tackle_components_vs_time` (source lines 67-131): validates that the
first row's `playDirection` is "right" (reading `.iloc[0]` of an empty frame
raises), filters the play's ball-carrier rows (inner merge with
`play_df` on `ballCarrierId`) and credited-tackler rows (inner merge with the
`tackle == 1` rows of `tackle_df`), left-merges roster weights, inner-joins
the two on `(gameId, playId, frameId)` and computes the derived columns of
source lines 123-128.  Play metadata and tackle attribution are assumed to
hold at most one matching row per key (true of the real csv files), so the
inner merges are embedded as filters and the frame join as a first-match
lookup. -/
def _get_tackle_components_vs_time (track : List Track) (play : List Play)
    (tackle : List TackleRow) (player : List Player) :
    Except Err (List GapSample) :=
  match track.head? with
  | none => Except.error Err.indexError
  | some t0 =>
    if t0.playDirection ≠ "right" then
      Except.error (Err.valueError (playDirectionMsg t0.playDirection t0.gameId t0.playId))
    else
      let ballcarrier := track.filter (fun t => play.any (fun p =>
        p.gameId == t.gameId && p.playId == t.playId && p.ballCarrierId == t.nflId))
      let tackler := track.filter (fun t => tackle.any (fun k =>
        k.tackle == 1 && k.gameId == t.gameId && k.playId == t.playId && k.nflId == t.nflId))
      Except.ok (ballcarrier.filterMap (fun c =>
        (tackler.find? (fun tk =>
            tk.gameId == c.gameId && tk.playId == c.playId && tk.frameId == c.frameId)).map
          (fun tk =>
            { frameId := c.frameId
              event := c.event
              gap := Rat.sqrt ((c.x - tk.x) ^ 2 + (c.y - tk.y) ^ 2)
              s := c.s
              s_downfield := c.s * sinDeg c.dir
              weight := findWeight player c.nflId
              s_downfield_t := tk.s * sinDeg tk.dir
              weight_t := findWeight player tk.nflId
              dis_t := tk.dis
              x_t := tk.x
              y_t := tk.y })))

/-- Body of `prep_get_tackle_metrics` downstream of the detector (source
lines 155-206), taking the component series and the two detected frame ids.
Each `comp_df.<col>.loc[fid]` is the first row with that `frameId` (the
series has one row per frame), failing with `KeyError` when absent; the
`.iloc[0]` reads of the weight columns can only fail on an empty series,
which the earlier `.loc` lookups already rule out.  `np.sqrt` is `Rat.sqrt`
(exact on the perfect-square inputs used below).  The division
`w_carrier / (w_carrier + w_tackler)` is total in `ℚ` (a zero weight sum,
impossible for real rosters, would yield numpy `inf` instead).
`path_start_frame_id = max(1, contact_frame_id - 30)` is source line 158. -/
def pathStartFrame (contactFrameId : Int) : Int := max 1 (contactFrameId - 30)

/-- `d_actual` of source lines 159-160: sum of the tackler's per-frame
distances over `(path_start_frame_id, contact_frame_id]`. -/
def dActualOf (comp : List GapSample) (contactFrameId : Int) : ℚ :=
  ((comp.filter (fun r =>
    decide (pathStartFrame contactFrameId < r.frameId) &&
      decide (r.frameId ≤ contactFrameId))).map GapSample.dis_t).sum

/-- `d_ideal` of source lines 161-162: straight-line distance between the
tackler's positions at the path start and at contact. -/
def dIdealOf (rContact rPathStart : GapSample) : ℚ :=
  Rat.sqrt ((rContact.x_t - rPathStart.x_t) ^ 2 + (rContact.y_t - rPathStart.y_t) ^ 2)

def tackle_metrics_from_window (comp : List GapSample)
    (contactFrameId tackleFrameId : Int) : Except Err TackleMetricsRecord :=
  match comp.find? (fun r => r.frameId == contactFrameId),
        comp.find? (fun r => r.frameId == pathStartFrame contactFrameId),
        comp.find? (fun r => r.frameId == tackleFrameId),
        comp.find? (fun r => r.frameId == tackleFrameId - 1),
        comp.head? with
  | some rContact, some rPathStart, some rTackle, some rTackleM1, some r0 =>
    Except.ok
      { contactFrameId := contactFrameId
        tackleFrameId := tackleFrameId
        frames := tackleFrameId - contactFrameId
        d_actual := dActualOf comp contactFrameId
        d_ideal := dIdealOf rContact rPathStart
        d_eff := if dActualOf comp contactFrameId = 0 then none
                 else some (dIdealOf rContact rPathStart / dActualOf comp contactFrameId)
        gap_tackle := rTackle.gap
        w_carrier := r0.weight
        w_tackler := r0.weight_t
        s_downfield_delta :=
          match r0.weight, r0.weight_t with
          | some w, some wt =>
            some (rTackleM1.s_downfield - rContact.s_downfield * w / (w + wt))
          | _, _ => none
        s_contact := rContact.s }
  | _, _, _, _, _ => Except.error Err.keyError

/-- `prep_get_tackle_metrics` (source lines 135-206): component series, then
detector, then metric computation. -/
def prep_get_tackle_metrics (track : List Track) (play : List Play)
    (tackle : List TackleRow) (player : List Player) :
    Except Err TackleMetricsRecord := do
  let comp ← _get_tackle_components_vs_time track play tackle player
  let w ← _get_tackle_window_data comp
  tackle_metrics_from_window comp w.contactFrameId w.tackleFrameId

/-- The message of the `raise ValueError` at source line 213. -/
def multiPlayMsg (gameList playList : List Int) : String :=
  "track_df passed in contained more than one play. gameId: [" ++
    String.intercalate ", " (gameList.map toString) ++ "], playId: [" ++
    String.intercalate ", " (playList.map toString) ++ "]"

/-- `util_play_contains_tackle` (source lines 208-215): fails when the rows
span several games or several plays, else reports whether some row is labeled
"tackle". -/
def util_play_contains_tackle (track : List Track) : Except Err Bool :=
  let gameList := uniqueList (track.map Track.gameId)
  let playList := uniqueList (track.map Track.playId)
  if 1 < gameList.length ∨ 1 < playList.length then
    Except.error (Err.valueError (multiPlayMsg gameList playList))
  else
    Except.ok (decide (0 < (track.filter (fun r => r.event == some "tackle")).length))

/-- `nflutil.transform_tracking_data` (source lines 101-134), per row: rows
of plays moving left are mirrored (`x -> FIELD_SIZE_X - x`,
`y -> FIELD_SIZE_Y - y`, `o` and `dir` rotated by 180 mod 360) and relabeled
as moving right; all other rows are untouched.  The `inplace` flag only
chooses between mutating and copying in pandas and has no counterpart on
immutable lists. -/
def transform_row (r : Track) : Track :=
  if r.playDirection == "left" then
    { r with
      x := FIELD_SIZE_X - r.x
      y := FIELD_SIZE_Y - r.y
      o := pymod (r.o + 180) 360
      dir := pymod (r.dir + 180) 360
      playDirection := "right" }
  else r

/-- The whole-dataframe form of `transform_tracking_data`: the masked column
assignments of source lines 120-129 update exactly the rows selected by
`i_left`, i.e. apply `transform_row` to every row. -/
def transform_tracking_data (track : List Track) : List Track :=
  track.map transform_row

/-- `Except.isOk` as a plain definition (did the Python call return without
raising?). -/
def isOkB {ε α : Type} : Except ε α → Bool
  | Except.ok _ => true
  | Except.error _ => false

/-! ### Concrete series used as counterexamples and witnesses -/

/-- A gap sample with the given frame id, event and gap; the kinematic
columns are filled with fixed innocuous values. -/
def mkRow (fid : Int) (ev : Option String) (g : ℚ) : GapSample :=
  { frameId := fid, event := ev, gap := g, s := 0, s_downfield := 0,
    weight := some 200, s_downfield_t := 0, weight_t := some 220,
    dis_t := 0, x_t := 0, y_t := 0 }

/-- A play whose only "first_contact" row (gap 2.5 < 3) sits at frame 5, far
outside the contact window [30, 60) of the tackle at frame 60. -/
def c1series : List GapSample :=
  [mkRow 5 (some "first_contact") 2.5, mkRow 40 none 10, mkRow 60 (some "tackle") 1]

/-- Spec Scenario A: "first_contact" at frame 50 with gap 2.5, "tackle" at
frame 60. -/
def c1scenA : List GapSample :=
  [mkRow 50 (some "first_contact") 2.5, mkRow 55 none 5, mkRow 60 (some "tackle") 1]

/-- Spec Scenario B: "first_contact" at frame 50 with gap 5.0 (unreliable),
window minimum gap 1.2 at frame 55, "tackle" at frame 60. -/
def c2scenB : List GapSample :=
  [mkRow 50 (some "first_contact") 5, mkRow 55 none 1.2, mkRow 60 (some "tackle") 1]

/-- A sorted play with no "first_contact": one window row at frame 40 and the
tackle at frame 60. -/
def c3series : List GapSample :=
  [mkRow 40 none 1, mkRow 60 (some "tackle") 1]

/-- A play with no "tackle"-labeled row (spec Scenario E). -/
def c4series : List GapSample :=
  [mkRow 10 none 2, mkRow 11 (some "first_contact") 1]

/-- A gap sample for the metric computations: the tackler sits at the origin
on every frame (`x_t = y_t = 0`) while `dis_t` records movement. -/
def c5row (fid : Int) (ev : Option String) (dis : ℚ) : GapSample :=
  { frameId := fid, event := ev, gap := 1, s := 3, s_downfield := 0,
    weight := some 200, s_downfield_t := 0, weight_t := some 220,
    dis_t := dis, x_t := 0, y_t := 0 }

/-- Three frames; the tackler travels distance 1 into the contact frame 2 but
ends where it started, so `d_actual = 1 > 0` while `d_ideal = 0`. -/
def c5series : List GapSample :=
  [c5row 1 none 0, c5row 2 none 1, c5row 3 (some "tackle") 1]

/-- Spec Scenario D: contact at the very first frame, so the pursuit mask
`(pathStart, contact]` selects no rows and `d_actual = 0`. -/
def c5leadup : List GapSample :=
  [c5row 1 none 0, c5row 2 (some "tackle") 0]

/-- The record `tackle_metrics_from_window c5leadup 1 2` evaluates to. -/
def c5leadupRec : TackleMetricsRecord :=
  { contactFrameId := 1, tackleFrameId := 2, frames := 1, d_actual := 0,
    d_ideal := 0, d_eff := none, gap_tackle := 1, w_carrier := some 200,
    w_tackler := some 220, s_downfield_delta := some 0, s_contact := 3 }

/-- A tracking row of game 1 with the given play, player, frame and play
direction. -/
def mkTrack (pid nid fid : Int) (pd : String) : Track :=
  { gameId := 1, playId := pid, nflId := nid, frameId := fid, x := 3, y := 4,
    s := 1, o := 0, dir := 90, dis := 1, event := none, playDirection := pd }

/-- A single-play input whose first row is normalized ("right") but whose
second row still says "left". -/
def c6track : List Track := [mkTrack 1 10 1 "right", mkTrack 1 20 1 "left"]

/-- A single-play input whose first row says "left". -/
def c6left : List Track := [mkTrack 1 10 1 "left", mkTrack 1 20 1 "right"]

def c6play : List Play := [⟨1, 1, 10⟩]

def c6tackle : List TackleRow := [⟨1, 1, 20, 1⟩]

def c6player : List Player := [⟨10, 200⟩, ⟨20, 220⟩]

/-- Rows spanning two different plays (playId 1 and 2), all normalized. -/
def c7track : List Track := [mkTrack 1 10 1 "right", mkTrack 2 10 1 "right"]

def c7play : List Play := [⟨1, 1, 10⟩]

def c7tackle : List TackleRow := [⟨1, 1, 20, 1⟩]

def c7player : List Player := [⟨10, 200⟩, ⟨20, 220⟩]

/-- A row of a play moving left, with x = 0. -/
def c8leftRow : Track := mkTrack 1 10 1 "left"

/-- A row of a play already moving right. -/
def c8rightRow : Track := mkTrack 1 10 1 "right"

/-- Two "first_contact" rows (frames 40 and 45, both with gap < 3) and the
tackle at frame 60, presented in frameId order. -/
def c9listA : List GapSample :=
  [mkRow 40 (some "first_contact") 2, mkRow 45 (some "first_contact") 2.5,
   mkRow 60 (some "tackle") 1]

/-- The same three rows with the two "first_contact" rows swapped. -/
def c9listB : List GapSample :=
  [mkRow 45 (some "first_contact") 2.5, mkRow 40 (some "first_contact") 2,
   mkRow 60 (some "tackle") 1]

/-- A sorted series used to instantiate the order-insensitivity theorem. -/
def c9sorted : List GapSample :=
  [mkRow 40 none 1, mkRow 60 (some "tackle") 1]

/-- A play whose tackle happens at the first joined frame, so the contact
window [max(1, 5-30), 5) contains no joined row. -/
def c10series : List GapSample := [mkRow 5 (some "tackle") 1]

/-- A series with a nonempty window for the safety half of the window
theorem. -/
def c10nonempty : List GapSample := [mkRow 40 none 1, mkRow 60 (some "tackle") 1]

/-! ### Helper lemmas about the list primitives -/

theorem minGapList_eq_none {l : List GapSample} (h : minGapList l = none) : l = [] := by
  cases l with
  | nil => rfl
  | cons r rs =>
    exfalso
    simp only [minGapList] at h
    cases hrs : minGapList rs <;> rw [hrs] at h <;> simp at h

theorem minGapList_attained :
    ∀ {l : List GapSample} {m : ℚ}, minGapList l = some m → ∃ r ∈ l, r.gap = m := by
  intro l
  induction l with
  | nil => intro m h; simp [minGapList] at h
  | cons r rs ih =>
    intro m h
    simp only [minGapList] at h
    cases hrs : minGapList rs with
    | none =>
      rw [hrs] at h
      exact ⟨r, List.mem_cons_self r rs, (Option.some_inj.mp h)⟩
    | some m' =>
      rw [hrs] at h
      have hm : min r.gap m' = m := Option.some_inj.mp h
      rcases le_total r.gap m' with hle | hle
      · exact ⟨r, List.mem_cons_self r rs, by rw [← hm, min_eq_left hle]⟩
      · obtain ⟨r', hr', hg⟩ := ih hrs
        exact ⟨r', List.mem_cons_of_mem _ hr', by rw [← hm, min_eq_right hle, hg]⟩

theorem firstMinBy_eq_none {l : List GapSample} (h : firstMinBy l = none) : l = [] := by
  cases l with
  | nil => rfl
  | cons r rs =>
    exfalso
    simp only [firstMinBy] at h
    cases hrs : firstMinBy rs <;> rw [hrs] at h <;> simp at h
    split at h <;> simp at h

theorem firstMinBy_mem :
    ∀ {l : List GapSample} {c : GapSample}, firstMinBy l = some c → c ∈ l := by
  intro l
  induction l with
  | nil => intro c h; simp [firstMinBy] at h
  | cons r rs ih =>
    intro c h
    simp only [firstMinBy] at h
    cases hrs : firstMinBy rs with
    | none =>
      rw [hrs] at h
      obtain rfl : r = c := Option.some_inj.mp h
      exact List.mem_cons_self r rs
    | some m =>
      rw [hrs] at h
      replace h : (if m.frameId < r.frameId then some m else some r) = some c := h
      by_cases hlt : m.frameId < r.frameId
      · rw [if_pos hlt] at h
        obtain rfl : m = c := Option.some_inj.mp h
        exact List.mem_cons_of_mem _ (ih hrs)
      · rw [if_neg hlt] at h
        obtain rfl : r = c := Option.some_inj.mp h
        exact List.mem_cons_self r rs

theorem firstMinBy_le :
    ∀ {l : List GapSample} {c : GapSample}, firstMinBy l = some c →
      ∀ r ∈ l, c.frameId ≤ r.frameId := by
  intro l
  induction l with
  | nil => intro c h; simp [firstMinBy] at h
  | cons r rs ih =>
    intro c h x hx
    simp only [firstMinBy] at h
    cases hrs : firstMinBy rs with
    | none =>
      rw [hrs] at h
      obtain rfl : r = c := Option.some_inj.mp h
      obtain rfl : rs = [] := firstMinBy_eq_none hrs
      rcases List.mem_singleton.mp hx with rfl
      exact le_refl _
    | some m =>
      rw [hrs] at h
      replace h : (if m.frameId < r.frameId then some m else some r) = some c := h
      by_cases hlt : m.frameId < r.frameId
      · rw [if_pos hlt] at h
        obtain rfl : m = c := Option.some_inj.mp h
        rcases List.mem_cons.mp hx with rfl | hxs
        · exact le_of_lt hlt
        · exact ih hrs x hxs
      · rw [if_neg hlt] at h
        obtain rfl : r = c := Option.some_inj.mp h
        rcases List.mem_cons.mp hx with rfl | hxs
        · exact le_refl _
        · exact le_trans (le_of_not_lt hlt) (ih hrs x hxs)

theorem mem_uniqueList {α : Type} [DecidableEq α] :
    ∀ (l : List α) (a : α), a ∈ l → a ∈ uniqueList l
  | [], a, h => absurd h (List.not_mem_nil a)
  | b :: t, a, h => by
    rw [uniqueList]
    rcases List.mem_cons.mp h with rfl | ht
    · exact List.mem_cons_self a _
    · by_cases hab : a = b
      · subst hab; exact List.mem_cons_self a _
      · exact List.mem_cons_of_mem _ (mem_uniqueList (t.filter (fun x => x ≠ b)) a
          (List.mem_filter.mpr ⟨ht, by simpa using hab⟩))
termination_by l => l.length
decreasing_by
  simp only [List.length_cons]
  exact Nat.lt_succ_of_le (List.length_filter_le _ _)

theorem one_lt_length_of_two_mem {α : Type} {l : List α} {a b : α}
    (ha : a ∈ l) (hb : b ∈ l) (hne : a ≠ b) : 1 < l.length := by
  cases l with
  | nil => exact absurd ha (List.not_mem_nil a)
  | cons x t =>
    cases t with
    | nil =>
      rcases List.mem_singleton.mp ha with rfl
      rcases List.mem_singleton.mp hb with rfl
      exact absurd rfl hne
    | cons y u => simp [List.length_cons]

/-- In a series whose frame ids are strictly increasing, the first row that
satisfies a predicate has a frame id no larger than any other row satisfying
it. -/
theorem find?_frameId_le {p : GapSample → Bool} :
    ∀ {g : List GapSample}, List.Pairwise (fun a b => a.frameId < b.frameId) g →
      ∀ {a : GapSample}, g.find? p = some a →
      ∀ {b : GapSample}, b ∈ g → p b = true → a.frameId ≤ b.frameId := by
  intro g
  induction g with
  | nil => intro _ a h; intro b hb; exact absurd hb (List.not_mem_nil b)
  | cons x t ih =>
    intro hp a hfind b hb hpb
    by_cases hx : p x
    · rw [List.find?_cons_of_pos _ hx] at hfind
      obtain rfl : x = a := Option.some_inj.mp hfind
      rcases List.mem_cons.mp hb with rfl | hbt
      · exact le_refl _
      · exact le_of_lt ((List.pairwise_cons.mp hp).1 b hbt)
    · rw [List.find?_cons_of_neg _ hx] at hfind
      rcases List.mem_cons.mp hb with rfl | hbt
      · exact absurd hpb hx
      · exact ih (List.pairwise_cons.mp hp).2 hfind hbt hpb

/-- The C10 safety core: whenever the contact window holds at least one row,
the row attaining the window-minimum gap satisfies the threshold condition,
so the candidate selection is nonempty. -/
theorem contactCandidates_ne_nil {g : List GapSample} {tf : Int}
    (hwin : g.filter (inWindow tf) ≠ []) : contactCandidates g tf ≠ [] := by
  obtain ⟨m, hm⟩ : ∃ m, minGapList (g.filter (inWindow tf)) = some m := by
    cases h : minGapList (g.filter (inWindow tf)) with
    | none => exact absurd (minGapList_eq_none h) hwin
    | some m => exact ⟨m, rfl⟩
  obtain ⟨r, hr, hg⟩ := minGapList_attained hm
  have hrg : r ∈ g := (List.mem_filter.mp hr).1
  have hrw : inWindow tf r = true := (List.mem_filter.mp hr).2
  have hthr : gapForContact g tf = max 1.8 m := by
    simp only [gapForContact, hm]
  have hle : r.gap ≤ gapForContact g tf + 1e-5 := by
    rw [hthr, hg]
    calc m ≤ max 1.8 m := le_max_right _ _
    _ ≤ max 1.8 m + 1e-5 := le_add_of_nonneg_right (by norm_num)
  exact List.ne_nil_of_mem (List.mem_filter.mpr ⟨hrg, by
    rw [Bool.and_eq_true]; exact ⟨hrw, decide_eq_true hle⟩⟩)

/-- Behavior of the threshold search on a nonempty window: it succeeds and
returns the earliest (least frame id) in-window row whose gap is at most
`gap_for_contact + 1e-5`. -/
theorem thresholdSearch_spec {g : List GapSample} {tf : Int}
    (hwin : g.filter (inWindow tf) ≠ []) :
    ∃ c ∈ contactCandidates g tf,
      thresholdSearch g tf = Except.ok ⟨tf, c.frameId⟩ ∧
      ∀ r ∈ contactCandidates g tf, c.frameId ≤ r.frameId := by
  have hc : contactCandidates g tf ≠ [] := contactCandidates_ne_nil hwin
  obtain ⟨c, hcm⟩ : ∃ c, firstMinBy (contactCandidates g tf) = some c := by
    cases h : firstMinBy (contactCandidates g tf) with
    | none => exact absurd (firstMinBy_eq_none h) hc
    | some c => exact ⟨c, rfl⟩
  refine ⟨c, firstMinBy_mem hcm, ?_, firstMinBy_le hcm⟩
  simp only [thresholdSearch, hcm]

/-- Rows of a candidate selection lie in the window. -/
theorem contactCandidates_subset_window {g : List GapSample} {tf : Int} {r : GapSample}
    (h : r ∈ contactCandidates g tf) : inWindow tf r = true := by
  have := (List.mem_filter.mp h).2
  rw [Bool.and_eq_true] at this
  exact this.1

/-- An in-window row has a frame id strictly before the tackle frame. -/
theorem inWindow_lt {tf : Int} {r : GapSample} (h : inWindow tf r = true) :
    r.frameId < tf := by
  rw [inWindow, Bool.and_eq_true] at h
  exact of_decide_eq_true h.2

/-- The `frames` field of a successful metric record is always the difference
of the two input frame ids. -/
theorem metrics_frames {comp : List GapSample} {c t : Int} {rec : TackleMetricsRecord}
    (h : tackle_metrics_from_window comp c t = Except.ok rec) :
    rec.frames = t - c := by
  unfold tackle_metrics_from_window at h
  split at h
  · obtain rfl : _ = rec := Except.ok.inj h
    rfl
  · exact absurd h (by simp)

/-! ### Claim theorems -/

/-- C1 (counterexample to the claim as stated): in `c1series` the only
"first_contact" row sits at frame 5 with gap 2.5 < 3, and a "tackle" row
sits at frame 60 — so the claim predicts contactFrameId = 5 — yet the
detector answers contactFrameId = 40, because no "first_contact" row lies
inside the 30-frame window [30, 60) and the branch is therefore not taken. -/
theorem C1_counterexample :
    (c1series.find? (fun r => r.event == some "first_contact")).map GapSample.frameId
        = some 5 ∧
    (c1series.find? (fun r => r.event == some "first_contact")).map GapSample.gap
        = some 2.5 ∧
    _get_tackle_window_data c1series = Except.ok ⟨60, 40⟩ ∧
    (40 : Int) ≠ 5 := by with_unfolding_all decide

/-- C1 (amended): the first-contact-direct branch fires only when some
"first_contact" row lies *inside* the 30-frame contact window; it then takes
the first "first_contact" row of the whole series and, if that row's gap is
below 3 yards, returns its frameId as the contactFrameId (together with the
first tackle row's frameId). -/
theorem C1_first_contact_direct (g : List GapSample) (tr fc : GapSample)
    (htr : g.find? (fun r => r.event == some "tackle") = some tr)
    (hwin : 0 < (g.filter (fun r =>
      inWindow tr.frameId r && r.event == some "first_contact")).length)
    (hfc : g.find? (fun r => r.event == some "first_contact") = some fc)
    (hgap : fc.gap < 3) :
    _get_tackle_window_data g = Except.ok ⟨tr.frameId, fc.frameId⟩ := by
  simp only [_get_tackle_window_data, htr, hfc, if_pos hwin, if_pos hgap]

/-- C1 witness: spec Scenario A — "first_contact" at frame 50 with gap 2.5
and "tackle" at frame 60 give contactFrameId 50. -/
theorem C1_witness : _get_tackle_window_data c1scenA = Except.ok ⟨60, 50⟩ :=
  C1_first_contact_direct c1scenA (mkRow 60 (some "tackle") 1)
    (mkRow 50 (some "first_contact") 2.5) (by with_unfolding_all decide)
    (by with_unfolding_all decide) (by with_unfolding_all decide)
    (by with_unfolding_all decide)

/-- C2 (confirmed): when no "first_contact" row exists (or the first one has
gap ≥ 3 yards), and the contact window holds at least one row (the claim's
"earliest frame inside that window" presupposes one), the detector runs the
threshold search and returns the earliest in-window frame whose gap is at
most `max(1.8, minGap) + 1e-5` (`contactCandidates`/`gapForContact` spell
out exactly that threshold over the window). -/
theorem C2_threshold_search (g : List GapSample) (tr : GapSample)
    (htr : g.find? (fun r => r.event == some "tackle") = some tr)
    (hfc : (∀ r ∈ g, r.event ≠ some "first_contact")
        ∨ (∃ fc, g.find? (fun r => r.event == some "first_contact") = some fc ∧ 3 ≤ fc.gap))
    (hwin : g.filter (inWindow tr.frameId) ≠ []) :
    ∃ c ∈ contactCandidates g tr.frameId,
      _get_tackle_window_data g = Except.ok ⟨tr.frameId, c.frameId⟩ ∧
      ∀ r ∈ contactCandidates g tr.frameId, c.frameId ≤ r.frameId := by
  have hred : _get_tackle_window_data g = thresholdSearch g tr.frameId := by
    simp only [_get_tackle_window_data, htr]
    by_cases hlen : 0 < (g.filter (fun r =>
        inWindow tr.frameId r && r.event == some "first_contact")).length
    · rw [if_pos hlen]
      obtain ⟨x, hx⟩ := List.exists_mem_of_ne_nil _ (List.length_pos.mp hlen)
      have hxg := List.mem_filter.mp hx
      have hxfc : x.event = some "first_contact" := by
        have h2 := hxg.2
        rw [Bool.and_eq_true] at h2
        simpa using h2.2
      rcases hfc with hnone | ⟨fc, hfind, hge⟩
      · exact absurd hxfc (hnone x hxg.1)
      · simp only [hfind, if_neg (not_lt.mpr hge)]
    · rw [if_neg hlen]
  obtain ⟨c, hcm, hok, hle⟩ := thresholdSearch_spec hwin
  exact ⟨c, hcm, hred.trans hok, hle⟩

/-- C2 witness: spec Scenario B — "first_contact" at frame 50 with gap 5
(unreliable), window minimum 1.2, threshold 1.8; the earliest qualifying
frame is 55. -/
theorem C2_witness :
    ∃ c ∈ contactCandidates c2scenB 60,
      _get_tackle_window_data c2scenB = Except.ok ⟨60, c.frameId⟩ ∧
      ∀ r ∈ contactCandidates c2scenB 60, c.frameId ≤ r.frameId :=
  C2_threshold_search c2scenB (mkRow 60 (some "tackle") 1) (by with_unfolding_all decide)
    (Or.inr ⟨mkRow 50 (some "first_contact") 5, by with_unfolding_all decide,
      by with_unfolding_all decide⟩)
    (by with_unfolding_all decide)

/-- C4 (confirmed): a gap series with no "tackle"-labeled row makes the
detector fail — the `.iloc[0]` on the empty tackle selection raises — so no
tackle window and hence no metrics record is produced.  (The spec's name
`NoTackleEventError` for this failure mode is realized in the code as the
uncaught pandas `IndexError`.) -/
theorem C4_no_tackle_event (g : List GapSample)
    (h : ∀ r ∈ g, r.event ≠ some "tackle") :
    _get_tackle_window_data g = Except.error Err.indexError := by
  have hfind : g.find? (fun r => r.event == some "tackle") = none := by
    rw [List.find?_eq_none]
    intro r hr
    simpa using h r hr
  simp only [_get_tackle_window_data, hfind]

/-- C4 witness: spec Scenario E — a play with no "tackle" frame fails. -/
theorem C4_witness : _get_tackle_window_data c4series = Except.error Err.indexError :=
  C4_no_tackle_event c4series (by with_unfolding_all decide)

/-- C10 (confirmed): when the contact window holds at least one row, the
candidate set of in-window rows with gap ≤ max(1.8, minGap) + 1e-5 is
nonempty (the row attaining the window minimum qualifies —
`contactCandidates_ne_nil`), so the threshold search's first-row access
succeeds; when the window holds no rows, the detector fails with the
uncaught low-level `IndexError` of `.iloc[0]` on the empty selection. -/
theorem C10_window_safety (g : List GapSample) (tr : GapSample)
    (htr : g.find? (fun r => r.event == some "tackle") = some tr) :
    (g.filter (inWindow tr.frameId) ≠ [] →
      contactCandidates g tr.frameId ≠ [] ∧
      ∃ w, thresholdSearch g tr.frameId = Except.ok w) ∧
    (g.filter (inWindow tr.frameId) = [] →
      _get_tackle_window_data g = Except.error Err.indexError) := by
  constructor
  · intro hwin
    obtain ⟨c, hcm, hok, _⟩ := thresholdSearch_spec hwin
    exact ⟨List.ne_nil_of_mem hcm, ⟨_, hok⟩⟩
  · intro hwin
    have hwin' := List.filter_eq_nil_iff.mp hwin
    have hfcwin : (g.filter (fun r =>
        inWindow tr.frameId r && r.event == some "first_contact")) = [] := by
      rw [List.filter_eq_nil_iff]
      intro a ha
      rw [Bool.and_eq_true]
      rintro ⟨hw, _⟩
      exact (hwin' a ha) hw
    have hcand : contactCandidates g tr.frameId = [] := by
      rw [contactCandidates, List.filter_eq_nil_iff]
      intro a ha
      rw [Bool.and_eq_true]
      rintro ⟨hw, _⟩
      exact (hwin' a ha) hw
    simp only [_get_tackle_window_data, htr, hfcwin]
    rw [if_neg (by simp)]
    simp [thresholdSearch, hcand, firstMinBy]

/-- C10 witness: a play whose tackle sits at the first joined frame (empty
window) fails with the indexing error. -/
theorem C10_witness : _get_tackle_window_data c10series = Except.error Err.indexError :=
  (C10_window_safety c10series (mkRow 5 (some "tackle") 1)
    (by with_unfolding_all decide)).2 (by with_unfolding_all decide)

/-- A successful threshold search returns a contact frame inside the window,
hence strictly before the tackle frame. -/
theorem thresholdSearch_contact_le {g : List GapSample} {tf : Int} {w : TackleWindow}
    (h : thresholdSearch g tf = Except.ok w) :
    w.contactFrameId ≤ w.tackleFrameId := by
  unfold thresholdSearch at h
  cases hfm : firstMinBy (contactCandidates g tf) with
  | none => rw [hfm] at h; exact absurd h (by simp)
  | some c =>
    rw [hfm] at h
    obtain rfl : (⟨tf, c.frameId⟩ : TackleWindow) = w := Except.ok.inj h
    exact le_of_lt (inWindow_lt (contactCandidates_subset_window (firstMinBy_mem hfm)))

/-- C3 (confirmed): on a gap series whose frame ids are strictly increasing
(the GapSample data-model invariant), any TackleWindow the detector returns
satisfies contactFrameId ≤ tackleFrameId, and consequently the `frames`
field of any metrics record computed from that window is nonnegative. -/
theorem C3_contact_before_tackle (g : List GapSample) (w : TackleWindow)
    (hsort : List.Pairwise (fun a b => a.frameId < b.frameId) g)
    (hok : _get_tackle_window_data g = Except.ok w) :
    w.contactFrameId ≤ w.tackleFrameId ∧
      ∀ rec, tackle_metrics_from_window g w.contactFrameId w.tackleFrameId = Except.ok rec →
        0 ≤ rec.frames := by
  have hmain : w.contactFrameId ≤ w.tackleFrameId := by
    unfold _get_tackle_window_data at hok
    split at hok
    · exact absurd hok (by simp)
    · rename_i tr htr
      split at hok
      · rename_i hlen
        split at hok
        · exact absurd hok (by simp)
        · rename_i fc hfc
          split at hok
          · rename_i hgap
            obtain rfl : (⟨tr.frameId, fc.frameId⟩ : TackleWindow) = w := Except.ok.inj hok
            obtain ⟨x, hx⟩ := List.exists_mem_of_ne_nil _ (List.length_pos.mp hlen)
            have hxm := List.mem_filter.mp hx
            have h2 := hxm.2
            rw [Bool.and_eq_true] at h2
            have hfcle := find?_frameId_le hsort hfc hxm.1 h2.2
            exact le_of_lt (lt_of_le_of_lt hfcle (inWindow_lt h2.1))
          · exact thresholdSearch_contact_le hok
      · exact thresholdSearch_contact_le hok
  refine ⟨hmain, fun rec hrec => ?_⟩
  rw [metrics_frames hrec]
  omega

/-- C3 witness: the sorted series `c3series` yields the window (60, 40). -/
theorem C3_witness :
    (40 : Int) ≤ 60 ∧
      ∀ rec, tackle_metrics_from_window c3series 40 60 = Except.ok rec → 0 ≤ rec.frames :=
  C3_contact_before_tackle c3series ⟨60, 40⟩ (by with_unfolding_all decide)
    (by with_unfolding_all decide)

/-- C5 (counterexample to the claim as stated): with contact frame 2 and
tackle frame 3 on `c5series` — a valid window, both frames present — the
tackler travels `d_actual = 1 > 0` but ends exactly where it started, so
`d_ideal = 0` and the calculator emits `d_eff = 0`, which is neither inside
the claimed open range (0, ∞) nor marked undefined. -/
theorem C5_counterexample :
    Except.map TackleMetricsRecord.d_eff (tackle_metrics_from_window c5series 2 3)
        = Except.ok (some 0) ∧
    Except.map TackleMetricsRecord.d_actual (tackle_metrics_from_window c5series 2 3)
        = Except.ok 1 := by
  with_unfolding_all decide

/-- C5 (amended): on a series with nonnegative per-frame distances, a
successful metric record has `d_eff` absent (the NaN marker) exactly when
`d_actual = 0`, and otherwise `d_eff = d_ideal / d_actual`, a *nonnegative*
value (it is 0 precisely when the straight-line displacement `d_ideal` is 0);
it is never produced from a zero denominator. -/
theorem C5_d_eff_amended (comp : List GapSample) (c t : Int) (rec : TackleMetricsRecord)
    (hdis : ∀ r ∈ comp, 0 ≤ r.dis_t)
    (hok : tackle_metrics_from_window comp c t = Except.ok rec) :
    (rec.d_eff = none ↔ rec.d_actual = 0) ∧
      ∀ q, rec.d_eff = some q → q = rec.d_ideal / rec.d_actual ∧ 0 ≤ q := by
  unfold tackle_metrics_from_window at hok
  split at hok
  · rename_i rContact rPathStart rTackle rTackleM1 r0 h1 h2 h3 h4 h5
    obtain rfl : _ = rec := Except.ok.inj hok
    have hact : 0 ≤ dActualOf comp c := by
      apply List.sum_nonneg
      intro x hx
      obtain ⟨r, hr, rfl⟩ := List.mem_map.mp hx
      exact hdis r (List.mem_filter.mp hr).1
    constructor
    · by_cases hz : dActualOf comp c = 0 <;> simp [hz]
    · intro q hq
      by_cases hz : dActualOf comp c = 0
      · simp [hz] at hq
      · simp only [hz, if_false, if_neg hz] at hq
        obtain rfl : _ = q := Option.some_inj.mp hq
        refine ⟨rfl, ?_⟩
        exact div_nonneg (Rat.sqrt_nonneg _) hact
  · exact absurd hok (by simp)

/-- C5 witness: spec Scenario D — contact at the path start leaves
`d_actual = 0` and the record carries the absent marker. -/
theorem C5_witness :
    (c5leadupRec.d_eff = none ↔ c5leadupRec.d_actual = 0) ∧
      ∀ q, c5leadupRec.d_eff = some q →
        q = c5leadupRec.d_ideal / c5leadupRec.d_actual ∧ 0 ≤ q :=
  C5_d_eff_amended c5leadup 1 2 c5leadupRec (by with_unfolding_all decide)
    (by with_unfolding_all decide)

/-- C6 (counterexample to the claim as stated): `c6track` contains a row
still marked "left" (its second row), yet the gap-series builder succeeds,
because only the *first* row's `playDirection` is inspected. -/
theorem C6_counterexample :
    c6track.any (fun r => decide (r.playDirection ≠ "right")) = true ∧
    isOkB (_get_tackle_components_vs_time c6track c6play c6tackle c6player) = true := by
  with_unfolding_all decide

/-- C6 (amended): the builder validates only the first row — it fails with
the ValueError naming the offending direction and play when the first row's
`playDirection` is not "right", and produces a series whenever the first
row's direction is "right", even if later rows are not normalized. -/
theorem C6_first_row_direction (track : List Track) (play : List Play)
    (tackle : List TackleRow) (player : List Player) (t0 : Track)
    (h0 : track.head? = some t0) :
    (t0.playDirection ≠ "right" →
      _get_tackle_components_vs_time track play tackle player =
        Except.error (Err.valueError
          (playDirectionMsg t0.playDirection t0.gameId t0.playId)))
    ∧ (t0.playDirection = "right" →
      isOkB (_get_tackle_components_vs_time track play tackle player) = true) := by
  constructor
  · intro hd
    simp only [_get_tackle_components_vs_time, h0, if_pos hd]
  · intro hd
    simp only [_get_tackle_components_vs_time, h0, if_neg (not_not_intro hd), isOkB]

/-- C6 witness: a play whose first row says "left" fails with the
direction ValueError. -/
theorem C6_witness :
    _get_tackle_components_vs_time c6left c6play c6tackle c6player =
      Except.error (Err.valueError (playDirectionMsg (mkTrack 1 10 1 "left").playDirection
        (mkTrack 1 10 1 "left").gameId (mkTrack 1 10 1 "left").playId)) :=
  (C6_first_row_direction c6left c6play c6tackle c6player (mkTrack 1 10 1 "left")
    (by with_unfolding_all decide)).1 (by with_unfolding_all decide)

/-- C7 (counterexample to the claim as stated): `c7track` spans two distinct
(gameId, playId) composite keys, yet the gap-series builder succeeds — it
performs no single-play validation at all. -/
theorem C7_counterexample :
    1 < (uniqueList (c7track.map (fun r => (r.gameId, r.playId)))).length ∧
    isOkB (_get_tackle_components_vs_time c7track c7play c7tackle c7player) = true := by
  with_unfolding_all decide

/-- C7 (amended): the single-play validation lives in the utility predicate
`util_play_contains_tackle` (and its qb_slide sibling), not in the builder:
on input spanning more than one (gameId, playId) composite key it fails with
the ValueError whose message names the offending gameId and playId lists. -/
theorem C7_util_multiplay (track : List Track) (r1 r2 : Track)
    (h1 : r1 ∈ track) (h2 : r2 ∈ track)
    (hne : (r1.gameId, r1.playId) ≠ (r2.gameId, r2.playId)) :
    util_play_contains_tackle track =
      Except.error (Err.valueError (multiPlayMsg (uniqueList (track.map Track.gameId))
        (uniqueList (track.map Track.playId)))) := by
  have hcond : 1 < (uniqueList (track.map Track.gameId)).length ∨
      1 < (uniqueList (track.map Track.playId)).length := by
    by_cases hg : r1.gameId = r2.gameId
    · right
      have hp : r1.playId ≠ r2.playId := fun hp => hne (by rw [hg, hp])
      exact one_lt_length_of_two_mem
        (mem_uniqueList _ _ (List.mem_map_of_mem Track.playId h1))
        (mem_uniqueList _ _ (List.mem_map_of_mem Track.playId h2)) hp
    · left
      exact one_lt_length_of_two_mem
        (mem_uniqueList _ _ (List.mem_map_of_mem Track.gameId h1))
        (mem_uniqueList _ _ (List.mem_map_of_mem Track.gameId h2)) hg
  simp only [util_play_contains_tackle, if_pos hcond]

/-- C7 witness: the two-play input `c7track` makes the utility fail with the
message naming its gameId and playId lists. -/
theorem C7_witness :
    util_play_contains_tackle c7track =
      Except.error (Err.valueError (multiPlayMsg (uniqueList (c7track.map Track.gameId))
        (uniqueList (c7track.map Track.playId)))) :=
  C7_util_multiplay c7track (mkTrack 1 10 1 "right") (mkTrack 2 10 1 "right")
    (by with_unfolding_all decide) (by with_unfolding_all decide) (by decide)

/-- Applying the per-row mirror a second time changes nothing: the first
application rewrites `playDirection` to "right", so the guard never fires
again. -/
theorem transform_row_idem (r : Track) : transform_row (transform_row r) = transform_row r := by
  by_cases h : r.playDirection = "left"
  · simp [transform_row, h]
  · simp [transform_row, h]

/-- A row not marked "left" is untouched by the mirror. -/
theorem transform_row_right (r : Track) (h : r.playDirection = "right") :
    transform_row r = r := by
  simp [transform_row, h]

/-- Rotating an angle in [0, 360) by 180 (mod 360) twice returns the original
angle: the underlying coordinate mirror is an involution. -/
theorem pymod_rotate_twice (d : ℚ) (h0 : 0 ≤ d) (h1 : d < 360) :
    pymod (pymod (d + 180) 360 + 180) 360 = d := by
  rcases lt_or_le d 180 with hc | hc
  · have hf1 : ⌊(d + 180) / 360⌋ = 0 := by
      rw [Int.floor_eq_zero_iff, Set.mem_Ico]
      constructor
      · exact div_nonneg (by linarith) (by norm_num)
      · rw [div_lt_one (by norm_num : (0:ℚ) < 360)]
        linarith
    have e1 : pymod (d + 180) 360 = d + 180 := by
      rw [pymod, hf1]
      push_cast
      ring
    rw [e1]
    have hf2 : ⌊(d + 180 + 180) / 360⌋ = 1 := by
      rw [Int.floor_eq_iff]
      constructor
      · rw [le_div_iff₀ (by norm_num : (0:ℚ) < 360)]
        push_cast
        linarith
      · rw [div_lt_iff₀ (by norm_num : (0:ℚ) < 360)]
        push_cast
        linarith
    rw [pymod, hf2]
    push_cast
    ring
  · have hf1 : ⌊(d + 180) / 360⌋ = 1 := by
      rw [Int.floor_eq_iff]
      constructor
      · rw [le_div_iff₀ (by norm_num : (0:ℚ) < 360)]
        push_cast
        linarith
      · rw [div_lt_iff₀ (by norm_num : (0:ℚ) < 360)]
        push_cast
        linarith
    have e1 : pymod (d + 180) 360 = d - 180 := by
      rw [pymod, hf1]
      push_cast
      ring
    rw [e1]
    have hf2 : ⌊(d - 180 + 180) / 360⌋ = 0 := by
      rw [Int.floor_eq_zero_iff, Set.mem_Ico]
      constructor
      · exact div_nonneg (by linarith) (by norm_num)
      · rw [div_lt_one (by norm_num : (0:ℚ) < 360)]
        linarith
    rw [pymod, hf2]
    push_cast
    ring

set_option maxRecDepth 4000 in
/-- C8 (counterexample to the claim as stated): applying the transform twice
to a "left" row does *not* return it to its original coordinates — the first
application relabels the row "right", so the second is a no-op and the
coordinates stay mirrored. -/
theorem C8_counterexample :
    c8leftRow.playDirection = "left" ∧
    transform_tracking_data (transform_tracking_data [c8leftRow]) =
      transform_tracking_data [c8leftRow] ∧
    transform_tracking_data (transform_tracking_data [c8leftRow]) ≠ [c8leftRow] := by
  with_unfolding_all decide

/-- C8 (amended): the mirror transform is a no-op on an already-canonical
("right") play; applying it twice to *any* play equals applying it once
(after one pass every previously-"left" row is relabeled "right"); and the
underlying angle rotation by 180 mod 360 — applied twice to an angle in
[0, 360) — does return the original value, so the pure coordinate mirror is
an involution even though the dataframe transform is not. -/
theorem C8_transform_idempotent :
    (∀ l : List Track, (∀ r ∈ l, r.playDirection = "right") →
      transform_tracking_data l = l) ∧
    (∀ l : List Track,
      transform_tracking_data (transform_tracking_data l) = transform_tracking_data l) ∧
    (∀ d : ℚ, 0 ≤ d → d < 360 → pymod (pymod (d + 180) 360 + 180) 360 = d) := by
  refine ⟨?_, ?_, pymod_rotate_twice⟩
  · intro l hl
    rw [transform_tracking_data]
    rw [show l.map transform_row = l.map id from
      List.map_congr_left (fun a ha => transform_row_right a (hl a ha))]
    exact List.map_id l
  · intro l
    simp only [transform_tracking_data, List.map_map]
    exact List.map_congr_left (fun a _ => transform_row_idem a)

/-- C8 witness: a "right" row is untouched, and the 180-degree rotation is
involutive at 90 degrees. -/
theorem C8_witness :
    transform_tracking_data [c8rightRow] = [c8rightRow] ∧
    pymod (pymod (90 + 180) 360 + 180) 360 = (90 : ℚ) :=
  ⟨C8_transform_idempotent.1 [c8rightRow] (by with_unfolding_all decide),
   C8_transform_idempotent.2.2 90 (by norm_num) (by norm_num)⟩

/-- C9 (counterexample to the claim as stated): `c9listA` and `c9listB` hold
the same three rows (they are permutations, identical once ordered by
frameId), yet the detector returns contact frame 40 for one presentation and
45 for the other — `.iloc[0]` on the "first_contact" selection depends on
presentation order. -/
theorem C9_counterexample :
    c9listA.Perm c9listB ∧
    _get_tackle_window_data c9listA = Except.ok ⟨60, 40⟩ ∧
    _get_tackle_window_data c9listB = Except.ok ⟨60, 45⟩ := by
  refine ⟨?_, by with_unfolding_all decide, by with_unfolding_all decide⟩
  with_unfolding_all decide

/-- C9 (amended): the pipeline is a pure function, so identical input series
give identical results; and two inputs holding the same rows are forced to
be the *same* series — hence give identical TackleWindow and metrics — as
soon as both are presented in strictly increasing frameId order.  (For
differing presentation orders the outputs can differ, per the
counterexample.) -/
theorem C9_deterministic (g1 g2 : List GapSample)
    (hperm : g1.Perm g2)
    (h1 : List.Pairwise (fun a b => a.frameId < b.frameId) g1)
    (h2 : List.Pairwise (fun a b => a.frameId < b.frameId) g2) :
    g1 = g2 ∧ _get_tackle_window_data g1 = _get_tackle_window_data g2 ∧
      ∀ c t, tackle_metrics_from_window g1 c t = tackle_metrics_from_window g2 c t := by
  haveI : IsAntisymm GapSample (fun a b => a.frameId < b.frameId) :=
    ⟨fun a b hab hba => absurd (lt_trans hab hba) (lt_irrefl _)⟩
  have heq : g1 = g2 := List.eq_of_perm_of_sorted hperm h1 h2
  subst heq
  exact ⟨rfl, rfl, fun c t => rfl⟩

/-- C9 witness: instantiation at a sorted series. -/
theorem C9_witness :
    c9sorted = c9sorted ∧
      _get_tackle_window_data c9sorted = _get_tackle_window_data c9sorted ∧
      ∀ c t, tackle_metrics_from_window c9sorted c t = tackle_metrics_from_window c9sorted c t :=
  C9_deterministic c9sorted c9sorted (List.Perm.refl _) (by with_unfolding_all decide)
    (by with_unfolding_all decide)
